import Mathlib

/-!
Verification of the flask-marshmallow quotes example
(`src/flask-marshmallow/flask_example.py`).

The file shallowly embeds the program: Python strings become `String`,
dictionaries become structures with `Option` fields (`none` = key absent),
exceptions become the error side of `Except PyErr`, and the SQLite database
becomes an explicit `DB` value threaded through the handlers.  Each route
handler is translated line by line from the source; comments cite the source
line numbers they model.
-/

namespace FlaskQuotes

/-- Python exceptions that the embedded code can raise. -/
inductive PyErr where
  | attributeError
  | nameError
  | valueError
deriving DecidableEq

/-- Python `str.split(sep)` with a one-character separator: splits on every
occurrence of the separator, keeping empty chunks, and `"".split(sep)` is
`[""]` (a single empty chunk). -/
def pySplit (c : Char) : List Char → List (List Char)
  | [] => [[]]
  | x :: xs =>
    if x = c then [] :: pySplit c xs
    else
      match pySplit c xs with
      | r :: rs => (x :: r) :: rs
      | [] => [[x]]

/-- `author_name.split(' ')` from line 64, on Lean strings. -/
def pySplitSpace (s : String) : List String :=
  (pySplit ' ' s.toList).map String.mk

/-! ### Models (lines 18-33)

`Author` and `Quote` are plain declarative-base model classes.  Note they
carry no `query` attribute: `declarative_base()` classes only get the mapped
columns and relationships declared on them (Flask-SQLAlchemy's `Model.query`
is absent here).  `DB` models the contents of the two SQLite tables. -/

structure Author where
  id : Nat
  first : String
  last : String
deriving DecidableEq

structure Quote where
  id : Nat
  content : String
  author_id : Option Nat
  posted_at : Option Nat
deriving DecidableEq

structure DB where
  authors : List Author
  quotes : List Quote
deriving DecidableEq

/-- The freshly created database: both tables empty (lines 147-148). -/
def initDB : DB := ⟨[], []⟩

/-- The attributes the `Author` class actually defines (lines 20-24). -/
def authorClassAttrs : List String :=
  ["__tablename__", "id", "first", "last"]

/-- The attributes the `Quote` class actually defines (lines 26-33),
plus the `quotes` backref it installs on `Author` instances. -/
def quoteClassAttrs : List String :=
  ["__tablename__", "id", "content", "author_id", "author", "posted_at"]

/-- Python attribute lookup on a class: yields the value when the attribute
exists and raises `AttributeError` otherwise. -/
def classGetattr (attrs : List String) (name : String) (val : α) :
    Except PyErr α :=
  if name ∈ attrs then .ok val else .error .attributeError

/-- `Author.query` (used at lines 89, 97, 129): the class defines no `query`
attribute, so the lookup raises `AttributeError`. -/
def Author.query (db : DB) : Except PyErr (List Author) :=
  classGetattr authorClassAttrs "query" db.authors

/-- `Quote.query` (used at lines 113, 142): same — no `query` attribute. -/
def Quote.query (db : DB) : Except PyErr (List Quote) :=
  classGetattr quoteClassAttrs "query" db.quotes

/-- The names bound at module level in `flask_example.py`: the imports
(lines 3-12) and the top-level definitions.  `db` is not among them. -/
def moduleGlobals : List String :=
  ["datetime", "Flask", "jsonify", "request", "g", "declarative_base",
   "Column", "Integer", "String", "ForeignKey", "DateTime", "relationship",
   "backref", "IntegrityError", "create_engine", "Session", "sessionmaker",
   "Schema", "fields", "ValidationError", "pre_load", "app", "engine",
   "Base", "Author", "Quote", "AuthorSchema", "must_not_be_blank",
   "QuoteSchema", "author_schema", "authors_schema", "quote_schema",
   "quotes_schema", "before_request", "teardown_request", "get_authors",
   "get_author", "get_quotes", "get_quote", "new_quote"]

/-- Python global-name lookup: `NameError` when the name is unbound.
Models the references to the undefined name `db` at lines 133, 140, 141. -/
def lookupGlobal (n : String) : Except PyErr Unit :=
  if n ∈ moduleGlobals then .ok () else .error .nameError

/-! ### Schemas (lines 35-74) -/

/-- The wire form of an author produced by `AuthorSchema` dumping
(lines 37-44): `id`, `first`, `last` plus the derived `formatted_name`. -/
structure DumpedAuthor where
  id : Nat
  first : String
  last : String
  formatted_name : String
deriving DecidableEq

/-- `AuthorSchema.format_name` (lines 43-44):
`"{}, {}".format(author.last, author.first)`. -/
def format_name (a : Author) : String :=
  a.last ++ ", " ++ a.first

/-- Dumping one author through `AuthorSchema`. -/
def author_schema_dump (a : Author) : DumpedAuthor :=
  ⟨a.id, a.first, a.last, format_name a⟩

/-- The restricted quote view `quotes_schema = QuoteSchema(many=True,
only=('id', 'content'))` (line 74). -/
structure QuoteListItem where
  id : Nat
  content : String
deriving DecidableEq

def quote_list_item (q : Quote) : QuoteListItem :=
  ⟨q.id, q.content⟩

/-- The full wire form of a quote produced by `quote_schema` dumping:
`id`, nested `author`, `content`, `posted_at` (lines 52-56). -/
structure DumpedQuote where
  id : Nat
  content : String
  author : Option DumpedAuthor
  posted_at : Option Nat
deriving DecidableEq

/-- Dumping one quote through `QuoteSchema`; the nested author is resolved
through the `author` relationship (foreign key into the author table). -/
def quote_schema_dump (db : DB) (q : Quote) : DumpedQuote :=
  ⟨q.id, q.content,
   (q.author_id.bind fun aid => db.authors.find? fun a => a.id == aid).map
     author_schema_dump,
   q.posted_at⟩

/-- The value of the `author` entry after the `pre_load` hook has run:
either a two-field dict `{first: .., last: ..}` or the empty dict `{}`. -/
inductive AuthorField where
  | objVal (first last : String)
  | emptyObj
deriving DecidableEq

/-- `QuoteSchema.process_author` (lines 60-69).  `data.get('author')` is
`none` when the key is absent; the `if author_name:` truthiness test treats
both `None` and the empty string as false.  The two-variable unpacking
`first, last = author_name.split(' ')` raises `ValueError` unless the split
yields exactly two chunks. -/
def process_author (author : Option String) : Except PyErr AuthorField :=
  match author with
  | some s =>
    if s = "" then .ok .emptyObj
    else
      match pySplitSpace s with
      | [f, l] => .ok (.objVal f l)
      | _ => .error .valueError
  | none => .ok .emptyObj

/-- Written from the SPEC's wording, for comparison with `process_author`:
the author string "is split on the first space into first/last", i.e.
everything before the first space becomes `first` and everything after it
becomes `last`; an absent (or empty, hence falsy) author string yields the
empty object. -/
def process_author_spec (author : Option String) : Except PyErr AuthorField :=
  match author with
  | some s =>
    if s = "" then .ok .emptyObj
    else
      match pySplitSpace s with
      | [] => .ok .emptyObj
      | f :: rest => .ok (.objVal f (String.intercalate " " rest))
  | none => .ok .emptyObj

/-- Loading the `author` field, `fields.Nested(AuthorSchema,
validate=must_not_be_blank)` (line 54): returns the loaded value (absent on
error) and the recorded field errors. -/
def authorFieldLoad (af : AuthorField) :
    Option (String × String) × List (String × String) :=
  match af with
  | .objVal f l => (some (f, l), [])
  | .emptyObj => (none, [("author", "Data not provided.")])

/-- Loading the `content` field, `fields.Str(required=True,
validate=must_not_be_blank)` (line 55). -/
def contentFieldLoad (c : Option String) :
    Option String × List (String × String) :=
  match c with
  | none => (none, [("content", "Missing data for required field.")])
  | some s =>
    if s = "" then (none, [("content", "Data not provided.")])
    else (some s, [])

/-- A POST body as decoded by `request.get_json()`: the two keys the schema
reads, plus a flag recording whether the dict holds any further keys (which
only affects Python truthiness of the dict). -/
structure PostBody where
  content : Option String
  author : Option String
  hasOtherKeys : Bool
deriving DecidableEq

/-- Python truthiness of the body dict: true iff it is non-empty. -/
def PostBody.truthy (b : PostBody) : Bool :=
  b.content.isSome || b.author.isSome || b.hasOtherKeys

/-- The result of `quote_schema.load`: the partially loaded data and the
field-error map (marshmallow 2.x returns the pair `(data, errors)`). -/
structure LoadOutcome where
  data_author : Option (String × String)
  data_content : Option String
  errors : List (String × String)
deriving DecidableEq

/-- `quote_schema.load(json_data)` (line 125): the `pre_load` hook runs
first (and may raise), then each field is deserialized and validated, the
errors being collected per field. -/
def quote_schema_load (b : PostBody) : Except PyErr LoadOutcome := do
  let af ← process_author b.author
  return ⟨(authorFieldLoad af).1, (contentFieldLoad b.content).1,
          (authorFieldLoad af).2 ++ (contentFieldLoad b.content).2⟩

/-! ### Routes (lines 76-144) -/

/-- The JSON bodies the handlers can answer with. -/
inductive RespBody where
  | message : String → RespBody
  | errorMap : List (String × String) → RespBody
  | authorsList : List DumpedAuthor → RespBody
  | authorDetail : DumpedAuthor → List QuoteListItem → RespBody
  | quotesList : List QuoteListItem → RespBody
  | quoteDetail : DumpedQuote → RespBody
  | emptyQuoteDump : RespBody
  | created : DumpedQuote → RespBody
deriving DecidableEq

structure HttpResponse where
  status : Nat
  body : RespBody
deriving DecidableEq

/-- `GET /authors` (lines 87-92).  Line 89 reads `Author.query`, which the
plain declarative class does not define, so the handler raises
`AttributeError` before anything else runs. -/
def get_authors (db : DB) : Except PyErr HttpResponse := do
  let authors ← Author.query db
  return ⟨200, .authorsList (authors.map author_schema_dump)⟩

/-- `GET /authors/<pk>` (lines 94-102).  Line 97 reads `Author.query`
(AttributeError).  The surrounding `try/except IntegrityError` cannot catch
that, and is dead in any case: `Query.get` returns the row or `None` for a
missing id, it never raises `IntegrityError`, so the 400 branch of line 99
is unreachable. -/
def get_author (pk : Nat) (db : DB) : Except PyErr HttpResponse := do
  let authors ← Author.query db
  match authors.find? (fun a => a.id == pk) with
  | none =>
    -- author is None: `author_schema.dump(None)` (line 100) invokes
    -- `format_name(None)`, i.e. `None.last`, and `author.quotes` (line 101)
    -- dereferences None as well — AttributeError either way
    .error .attributeError
  | some a =>
    return ⟨200, .authorDetail (author_schema_dump a)
        ((db.quotes.filter fun q => q.author_id == some a.id).map
          quote_list_item)⟩

/-- `GET /quotes/` (lines 104-108).  This handler queries through
`g.db_session` (line 106), which does exist, so it works. -/
def get_quotes (db : DB) : Except PyErr HttpResponse :=
  .ok ⟨200, .quotesList (db.quotes.map quote_list_item)⟩

/-- `GET /quotes/<pk>` (lines 110-117).  Line 113 reads `Quote.query`
(AttributeError); as in `get_author` the `except IntegrityError` branch with
its 400 response is unreachable. -/
def get_quote (pk : Nat) (db : DB) : Except PyErr HttpResponse := do
  let quotes ← Quote.query db
  match quotes.find? (fun q => q.id == pk) with
  | none =>
    -- quote is None: `quote_schema.dump(None)` resolves every field access
    -- on None to marshmallow's missing marker, so the dumped mapping is
    -- empty and the handler would answer 200 with an empty quote object
    return ⟨200, .emptyQuoteDump⟩
  | some q =>
    return ⟨200, .quoteDetail (quote_schema_dump db q)⟩

/-- `POST /quotes/` (lines 119-144), translated line by line:
`request.get_json()` yields `none` for a missing/non-JSON body; a falsy
(empty) dict is also answered 400 (line 122); `quote_schema.load` (line 125)
may raise `ValueError` out of the `pre_load` hook; field errors are answered
422 (line 127); otherwise line 129 reads `Author.query` and raises
`AttributeError`, so everything past it is dead code. That dead code is
still modelled: the author lookup-or-create (lines 129-133), the quote
insert with the server timestamp `now` (lines 135-141) — where `db.session`
names the undefined global `db`, a NameError — and the re-query dump
(line 142), which would hit `Quote.query` again. -/
def new_quote (json_data : Option PostBody) (db : DB) (now : Nat) :
    Except PyErr HttpResponse :=
  match json_data with
  | none => .ok ⟨400, .message "No input data provided"⟩
  | some b =>
    if b.truthy = false then .ok ⟨400, .message "No input data provided"⟩
    else do
      let out ← quote_schema_load b
      if out.errors ≠ [] then
        return ⟨422, .errorMap out.errors⟩
      else
        -- line 128: data['author'] is present whenever no field error was
        -- recorded, so the two lookups succeed
        let fl := out.data_author.getD ("", "")
        -- line 129: AttributeError; nothing below ever executes
        let authors ← Author.query db
        let existing := authors.find? fun a =>
          a.first == fl.1 && a.last == fl.2
        -- lines 133/140/141: the name `db` is unbound — NameError
        let _ ← lookupGlobal "db"
        let author := existing.getD ⟨db.authors.length + 1, fl.1, fl.2⟩
        let quote : Quote :=
          ⟨db.quotes.length + 1, out.data_content.getD "", some author.id,
           some now⟩
        let db' : DB :=
          ⟨if existing.isSome then db.authors else author :: db.authors,
           quote :: db.quotes⟩
        let allQuotes ← Quote.query db'
        match allQuotes.find? (fun q => q.id == quote.id) with
        | some q => return ⟨200, .created (quote_schema_dump db' q)⟩
        | none => return ⟨200, .emptyQuoteDump⟩

/-! ### Helper lemmas -/

theorem pySplit_ne_nil (c : Char) (l : List Char) : pySplit c l ≠ [] := by
  induction l with
  | nil => simp [pySplit]
  | cons x xs ih =>
    by_cases hx : x = c
    · simp [pySplit, hx]
    · rcases hrec : pySplit c xs with _ | ⟨r, rs⟩
      · simp [pySplit, hx, hrec]
      · simp [pySplit, hx, hrec]

/-- Splitting on a character yields one more chunk than the number of its
occurrences, so a string holds exactly one space iff its split has exactly
two chunks. -/
theorem pySplit_length (c : Char) (l : List Char) :
    (pySplit c l).length = l.count c + 1 := by
  induction l with
  | nil => rfl
  | cons x xs ih =>
    by_cases hx : x = c
    · simp [pySplit, hx, List.count_cons, ih]
    · rcases hrec : pySplit c xs with _ | ⟨r, rs⟩
      · exact absurd hrec (pySplit_ne_nil c xs)
      · rw [hrec] at ih
        simp only [List.length_cons] at ih
        simp [pySplit, hx, hrec, List.count_cons, ih]

theorem pySplitSpace_length (s : String) :
    (pySplitSpace s).length = s.toList.count ' ' + 1 := by
  simp [pySplitSpace, pySplit_length]

theorem except_bind_ok (a : α) (f : α → Except ε β) :
    (Except.ok a : Except ε α) >>= f = f a := rfl

theorem except_bind_error (e : ε) (f : α → Except ε β) :
    (Except.error e : Except ε α) >>= f = Except.error e := rfl

theorem except_pure (a : α) : (pure a : Except ε α) = Except.ok a := rfl

theorem author_query_err (db : DB) :
    Author.query db = .error .attributeError := rfl

theorem quote_query_err (db : DB) :
    Quote.query db = .error .attributeError := rfl

/-! ### Claim theorems -/

/-- C1: the spec claims a valid POST body `{"content": C, "author": "F L"}`
is answered 200 with "Created new quote." and the echoed quote.  The code
cannot do this: after validation succeeds, line 129 reads `Author.query`,
an attribute the plain declarative model class does not define, so the
request dies with an uncaught `AttributeError` instead. -/
theorem new_quote_valid_post_raises :
    new_quote (some ⟨some "My first quote.", some "Tim Peters", false⟩)
      initDB 0 = .error .attributeError := rfl

/-- C2: the spec claims a GET on a missing author or quote id is answered
400 with a descriptive message.  The code raises `AttributeError` at
`Author.query` / `Quote.query` before any lookup happens (and its 400
branch only catches `IntegrityError`, which `Query.get` never raises for a
missing id). -/
theorem get_missing_id_raises :
    get_author 999 initDB = .error .attributeError ∧
    get_quote 999 initDB = .error .attributeError := ⟨rfl, rfl⟩

/-- C3 counterexample: the claim says a non-empty author string "is split
on the first space into first and last".  On `"Tim Van Peters"` that
reading yields `first = "Tim"`, `last = "Van Peters"` (as
`process_author_spec` shows), but the code's two-variable unpacking of
`split(' ')` raises `ValueError` instead. -/
theorem process_author_first_space_divergence :
    process_author (some "Tim Van Peters") = .error .valueError ∧
    process_author_spec (some "Tim Van Peters") =
      .ok (.objVal "Tim" "Van Peters") := ⟨rfl, rfl⟩

/-- C3 amended: the pre-load step splits a non-empty author string on
spaces and requires exactly two chunks, which become `first` and `last`
(for a string holding exactly one space this coincides with splitting at
that space); an absent author yields the empty object. -/
theorem process_author_two_tokens (s f l : String)
    (hne : s ≠ "") (hsp : pySplitSpace s = [f, l]) :
    process_author (some s) = .ok (.objVal f l) ∧
    process_author none = .ok .emptyObj := by
  constructor
  · simp only [process_author]
    rw [if_neg hne, hsp]
  · rfl

theorem process_author_two_tokens_witness :
    process_author (some "Tim Peters") = .ok (.objVal "Tim" "Peters") ∧
    process_author none = .ok .emptyObj :=
  process_author_two_tokens "Tim Peters" "Tim" "Peters" (by decide) rfl

/-- C4: the spec claims a successful POST creates exactly one author row
for an unseen name and zero for a seen one.  No POST ever succeeds: every
request is answered 400 or 422, or dies in an uncaught exception before
reaching the insert code (`Author.query` raises `AttributeError`, and the
inserts themselves reference the undefined global `db`), so no author row
is ever created at all. -/
theorem new_quote_never_succeeds (j : Option PostBody) (db : DB) (now : Nat)
    (r : HttpResponse) (h : new_quote j db now = .ok r) :
    r.status = 400 ∨ r.status = 422 := by
  cases j with
  | none =>
    simp only [new_quote] at h
    injection h with h
    rw [← h]
    exact Or.inl rfl
  | some b =>
    by_cases hb : b.truthy = true
    · cases haf : process_author b.author with
      | error e =>
        have hres : new_quote (some b) db now = .error e := by
          simp [new_quote, hb, quote_schema_load, haf, except_bind_error]
        rw [hres] at h
        simp at h
      | ok af =>
        by_cases herr :
            (authorFieldLoad af).2 ++ (contentFieldLoad b.content).2 = []
        · have hres : new_quote (some b) db now = .error .attributeError := by
            simp [new_quote, hb, quote_schema_load, haf, except_bind_ok,
              except_bind_error, except_pure, herr, author_query_err]
          rw [hres] at h
          simp at h
        · have hres : new_quote (some b) db now =
              .ok ⟨422, .errorMap ((authorFieldLoad af).2 ++
                (contentFieldLoad b.content).2)⟩ := by
            simp [new_quote, hb, quote_schema_load, haf, except_bind_ok,
              except_pure, herr]
          rw [hres] at h
          injection h with h
          rw [← h]
          exact Or.inr rfl
    · have hb' : b.truthy = false := by
        simpa using hb
      have hres : new_quote (some b) db now =
          .ok ⟨400, .message "No input data provided"⟩ := by
        simp [new_quote, hb']
      rw [hres] at h
      injection h with h
      rw [← h]
      exact Or.inl rfl

theorem new_quote_never_succeeds_witness :
    (HttpResponse.mk 400 (.message "No input data provided")).status = 400 ∨
    (HttpResponse.mk 400 (.message "No input data provided")).status = 422 :=
  new_quote_never_succeeds none initDB 0
    ⟨400, .message "No input data provided"⟩ rfl

/-- C5 counterexample: the claim quantifies over EVERY body with blank
content, but when the body also carries a space-free author string the
`pre_load` hook raises `ValueError` before field validation, so this blank-
content request is never answered 422. -/
theorem blank_content_crash_counterexample :
    new_quote (some ⟨some "", some "TimVanPeters", false⟩) initDB 0 =
      .error .valueError := rfl

/-- C5 amended: every POST whose body has a blank `content` value, and
whose author entry survives the pre-load hook (absent, empty, or splitting
into exactly two chunks), is answered 422 with an error entry keyed
"content". -/
theorem blank_content_gives_422 (b : PostBody) (db : DB) (now : Nat)
    (af : AuthorField) (hc : b.content = some "")
    (haf : process_author b.author = .ok af) :
    ∃ errs, new_quote (some b) db now = .ok ⟨422, .errorMap errs⟩ ∧
      "content" ∈ errs.map Prod.fst := by
  have hb : b.truthy = true := by simp [PostBody.truthy, hc]
  refine ⟨(authorFieldLoad af).2 ++ [("content", "Data not provided.")],
    ?_, ?_⟩
  · have hec : contentFieldLoad b.content =
        (none, [("content", "Data not provided.")]) := by
      rw [hc]; rfl
    simp [new_quote, hb, quote_schema_load, haf, hec, except_bind_ok,
      except_pure]
  · simp

theorem blank_content_gives_422_witness :
    ∃ errs, new_quote (some ⟨some "", some "Tim Peters", false⟩) initDB 0 =
        .ok ⟨422, .errorMap errs⟩ ∧ "content" ∈ errs.map Prod.fst :=
  blank_content_gives_422 ⟨some "", some "Tim Peters", false⟩ initDB 0
    (.objVal "Tim" "Peters") rfl rfl

/-- C6 counterexample: the claim quantifies over EVERY body lacking an
"author" key, but the empty JSON object `{}` lacks it and is falsy, so
line 122 answers it 400 ("No input data provided"), not 422. -/
theorem empty_body_counterexample :
    new_quote (some ⟨none, none, false⟩) initDB 0 =
      .ok ⟨400, .message "No input data provided"⟩ := rfl

/-- C6 amended: every POST whose JSON body is a non-empty object lacking
the "author" key is answered 422 with an error entry keyed "author". -/
theorem missing_author_gives_422 (b : PostBody) (db : DB) (now : Nat)
    (ha : b.author = none) (hb : b.truthy = true) :
    ∃ errs, new_quote (some b) db now = .ok ⟨422, .errorMap errs⟩ ∧
      "author" ∈ errs.map Prod.fst := by
  have haf : process_author b.author = .ok .emptyObj := by rw [ha]; rfl
  refine ⟨("author", "Data not provided.") ::
    (contentFieldLoad b.content).2, ?_, ?_⟩
  · simp [new_quote, hb, quote_schema_load, haf, authorFieldLoad,
      except_bind_ok, except_pure]
  · simp

theorem missing_author_gives_422_witness :
    ∃ errs, new_quote (some ⟨some "hello", none, false⟩) initDB 0 =
        .ok ⟨422, .errorMap errs⟩ ∧ "author" ∈ errs.map Prod.fst :=
  missing_author_gives_422 ⟨some "hello", none, false⟩ initDB 0 rfl rfl

/-- C7: the spec claims a round-trip property for every quote created by a
successful POST.  No quote is ever created: even this fully valid request
dies with an uncaught `AttributeError` at `Author.query` (line 129) before
any row is inserted, so the reload-and-dump code of lines 135-144 is
unreachable. -/
theorem new_quote_roundtrip_unreachable :
    new_quote (some ⟨some "A day without sunshine is like night.",
      some "Steve Martin", false⟩) initDB 5 = .error .attributeError := rfl

/-- C8: every author dumped through `AuthorSchema` carries a
`formatted_name` equal to `"{last}, {first}"`. -/
theorem dumped_author_formatted_name (a : Author) :
    (author_schema_dump a).formatted_name = a.last ++ ", " ++ a.first := rfl

/-- C9 counterexample: the claim covers every author string without exactly
one space, but the EMPTY author string (zero spaces) is falsy, so the
pre-load hook replaces it by the empty object and the request is answered
422 — no `ValueError` is raised for it. -/
theorem empty_author_string_counterexample :
    new_quote (some ⟨some "x", some "", false⟩) initDB 0 =
      .ok ⟨422, .errorMap [("author", "Data not provided.")]⟩ := rfl

/-- C9 amended: every POST whose "author" value is a NON-empty string that
does not contain exactly one space makes the pre-load two-variable
unpacking of `split(' ')` raise an uncaught `ValueError`, so the request
produces an exception rather than a 400 or 422 response. -/
theorem bad_author_raises_value_error (b : PostBody) (db : DB) (now : Nat)
    (s : String) (ha : b.author = some s) (hne : s ≠ "")
    (hsp : s.toList.count ' ' ≠ 1) :
    new_quote (some b) db now = .error .valueError := by
  have hb : b.truthy = true := by simp [PostBody.truthy, ha]
  have hlen : (pySplitSpace s).length ≠ 2 := by
    rw [pySplitSpace_length]; omega
  have haf : process_author b.author = .error .valueError := by
    rw [ha]
    simp only [process_author]
    rw [if_neg hne]
    rcases hps : pySplitSpace s with _ | ⟨f, _ | ⟨l, _ | ⟨x, xs⟩⟩⟩
    · rfl
    · rfl
    · rw [hps] at hlen
      simp at hlen
    · rfl
  simp [new_quote, hb, quote_schema_load, haf, except_bind_error]

theorem bad_author_raises_value_error_witness :
    new_quote (some ⟨some "x", some "TimVanPeters", false⟩) initDB 0 =
      .error .valueError :=
  bad_author_raises_value_error ⟨some "x", some "TimVanPeters", false⟩
    initDB 0 "TimVanPeters" rfl (by decide) (by decide)

/-- C10: the three routes that go through the nonexistent `query` class
attribute — GET /authors, GET /authors/(pk), GET /quotes/(pk) — raise
`AttributeError` on every request, whatever the database contents. -/
theorem query_routes_raise_attribute_error (db : DB) (pk : Nat) :
    get_authors db = .error .attributeError ∧
    get_author pk db = .error .attributeError ∧
    get_quote pk db = .error .attributeError := ⟨rfl, rfl, rfl⟩

end FlaskQuotes
